import Mathlib

/-
Shallow embedding of the parallel for-each backend in
pstl/include/pstl/internal/thread/par_for_each.h (namespace __pstl_thread_backend).

Modelling choices:
- Random-access iterators are modelled as natural-number positions; a range
  [first, sent) is the pair of positions first, sent with distance sent - first.
- The callable fn is left abstract: each executor returns the trace of positions
  whose elements are passed to fn, in invocation order.  Counting and ordering
  claims about fn become claims about these traces.
- std::vector<Iter> is modelled as a size-tracked function; operator[] reads
  past the size (undefined behaviour in C++) are modelled as Option.none, which
  propagates through the dispatch result.
- ThreadExecutor::get_num_exec_unit lives in executor.h, which is not part of
  the sources; it is modelled from the spec (see get_num_exec_unit) as an
  indexed sequence of query results so that the number of queries made by one
  dispatch call is observable.
-/

namespace PstlThreadBackend

/-- A std::vector of iterators: a size together with the cell contents.  Cells
are only ever written in bounds by the embedded code, so writes need no bounds
check; reads are bounds-checked (see IterVec.read). -/
structure IterVec where
  size : Nat
  data : Nat → Nat

/-- Write cell i of the vector (models paritions[i] = iter, always in bounds in
the embedded loop). -/
def IterVec.set (v : IterVec) (i x : Nat) : IterVec :=
  ⟨v.size, fun j => if j = i then x else v.data j⟩

/-- Read cell i of the vector (models paritions[i] on the right-hand side).  A
read past the size is undefined behaviour in C++ and is modelled as none. -/
def IterVec.read (v : IterVec) (i : Nat) : Option Nat :=
  if i < v.size then some (v.data i) else none

/-- Modelled from the spec: ThreadExecutor::get_num_exec_unit, declared in
executor.h which is missing from the sources.  The spec describes it as a
no-argument query returning the platform's usable parallelism degree as a
positive integer, queried afresh at each call site.  It is modelled as
consuming one query from the ambient sequence provider: the result is the
provider's value at the current query index, and the query counter advances by
one, so the number of queries a dispatch makes is observable. -/
def get_num_exec_unit (provider : Nat → Nat) (queryCount : Nat) : Nat × Nat :=
  (provider queryCount, queryCount + 1)

/-- The loop of __for_each::sequential (par_for_each.h lines 76-78):
while (first != sent) f(*first++).  The returned pair is the trace of positions
passed to f, in order, and the final iterator.  The fuel argument bounds the
number of iterations; sequential instantiates it with the distance
sent - first, which is exactly enough when sent is reachable from first. -/
def seqRun : Nat → Nat → Nat → List Nat × Nat
  | 0, first, _ => ([], first)
  | fuel + 1, first, sent =>
    if first = sent then ([], first)
    else
      let r := seqRun fuel (first + 1) sent
      (first :: r.1, r.2)

/-- __for_each::sequential (par_for_each.h lines 72-79): walk from first to
sent, invoking f on each element, and return the final iterator. -/
def sequential (first sent : Nat) : List Nat × Nat :=
  seqRun (sent - first) first sent

/-- The for loop of __for_each::__for_each_partitioner (par_for_each.h lines
39-44): for (i = 0; i != n; i++) { paritions[i] = iter;
std::advance(iter, chunkSize); paritions[i + 1] = iter; }.  The fuel counts the
remaining iterations (n - i); i is the loop counter and iter the running
iterator. -/
def partitionerLoop (chunkSize : Nat) : Nat → Nat → Nat → IterVec → IterVec
  | 0, _, _, v => v
  | fuel + 1, i, iter, v =>
    partitionerLoop chunkSize fuel (i + 1) (iter + chunkSize)
      ((v.set i iter).set (i + 1) (iter + chunkSize))

/-- __for_each::__for_each_partitioner (par_for_each.h lines 27-48).  Queries
the execution-unit provider once, computes n = distance(first, sent) and
chunkSize = n / numProcessingUnits, default-constructs a vector of n + 1
iterators (default cells modelled as position 0; every cell that is ever read
in bounds is first written), runs the boundary-writing loop n times, then
forces cell n to sent.  Returns the vector and the advanced query counter. -/
def for_each_partitioner (provider : Nat → Nat) (queryCount first sent : Nat) :
    IterVec × Nat :=
  let q := get_num_exec_unit provider queryCount
  let numProcessingUnits := q.1
  let n := sent - first
  let chunkSize := n / numProcessingUnits
  let paritions : IterVec := ⟨n + 1, fun _ => 0⟩
  let paritions := partitionerLoop chunkSize n 0 first paritions
  (paritions.set n sent, q.2)

/-- __for_each::parallel (par_for_each.h lines 50-70).  Queries the
execution-unit provider, calls the partitioner (which queries it again), then
for i = 0 .. numProcessingUnits - 1 spawns a worker running sequential on
(paritions[i], paritions[i+1]).  The first component collects the per-worker
invocation traces in partition order, or none if any paritions[..] read is out
of bounds (undefined behaviour in C++).  The second component is the returned
iterator sent (line 69); the third is the final query counter. -/
def parallel (provider : Nat → Nat) (queryCount first sent : Nat) :
    Option (List (List Nat)) × Nat × Nat :=
  let q := get_num_exec_unit provider queryCount
  let numProcessingUnits := q.1
  let p := for_each_partitioner provider q.2 first sent
  let paritions := p.1
  let workerTraces := (List.range numProcessingUnits).mapM fun i =>
    match paritions.read i, paritions.read (i + 1) with
    | some b, some e => some (sequential b e).1
    | _, _ => none
  (workerTraces, sent, p.2)

/-- The branch condition of __pstl_algorithm::operator() (par_for_each.h line
18): if (true /- random_access and parallel-policy test, commented out -/).
The policy and iterator-category arguments are accepted but, as in the source,
ignored: the condition is the literal true. -/
def dispatchSelectsParallel (policyIsParallel iterIsRandomAccess : Bool) : Bool :=
  true

/-- What a call of __pstl_algorithm::operator() hands back to the caller: the
operator has deduced return type auto with no return statement, so it returns
void (DispatchResult.unit); DispatchResult.iter would be an iterator value. -/
inductive DispatchResult where
  | unit : DispatchResult
  | iter : Nat → DispatchResult
  deriving DecidableEq

/-- __pstl_algorithm::operator() specialised to __for_each (par_for_each.h
lines 14-22): tests dispatchSelectsParallel, invokes parallel or sequential
accordingly, discards their return values, and returns void.  The result
records the returned value (always DispatchResult.unit), the invocation traces
of the executed path (the sequential path yields a single trace), and the
final query counter. -/
def forEachOperator (provider : Nat → Nat) (queryCount : Nat)
    (policyIsParallel iterIsRandomAccess : Bool) (first sent : Nat) :
    DispatchResult × Option (List (List Nat)) × Nat :=
  if dispatchSelectsParallel policyIsParallel iterIsRandomAccess then
    let r := parallel provider queryCount first sent
    (DispatchResult.unit, r.1, r.2.2)
  else
    let r := sequential first sent
    (DispatchResult.unit, some [r.1], queryCount)

/-- Helper: seqRun with fuel exactly the distance visits range' first n in
order and stops at the sentinel. -/
theorem seqRun_range' (n : Nat) :
    ∀ first : Nat, seqRun n first (first + n) = (List.range' first n, first + n) := by
  induction n with
  | zero => intro first; simp [seqRun]
  | succ k ih =>
    intro first
    have hne : first ≠ first + (k + 1) := by omega
    have h2 := ih (first + 1)
    rw [show first + 1 + k = first + (k + 1) from by omega] at h2
    simp only [seqRun, if_neg hne, h2, List.range'_succ]

/-- C8: sequential(first, last, fn) invokes fn exactly N times, strictly in
iterator order (the trace is range' first N, the positions first, first+1, ...
in increasing order, of length N = sent - first), and returns an iterator equal
to last. -/
theorem sequential_visits_in_order (first sent : Nat) (h : first ≤ sent) :
    sequential first sent = (List.range' first (sent - first), sent) := by
  obtain ⟨d, rfl⟩ : ∃ d, sent = first + d := ⟨sent - first, by omega⟩
  have hd : first + d - first = d := by omega
  rw [sequential, hd, seqRun_range']

/-- Witness for C8 at first = 0, sent = 5. -/
theorem sequential_visits_in_order_witness :
    (0 : Nat) ≤ 5 ∧ sequential 0 5 = (List.range' 0 5, 5) :=
  ⟨by decide, sequential_visits_in_order 0 5 (by decide)⟩

/-- C10: sequential terminates whenever the sentinel is reachable from first:
under the loop guard first ≠ sent the remaining distance sent - first is a
natural number that strictly decreases on the iteration (which recurses at
first + 1), and the loop reaches the sentinel. -/
theorem sequential_terminates (first sent : Nat) (hne : first ≠ sent)
    (hle : first ≤ sent) :
    sent - (first + 1) < sent - first ∧
    sequential first sent =
      (first :: (sequential (first + 1) sent).1, (sequential (first + 1) sent).2) ∧
    (sequential first sent).2 = sent := by
  have h1 : sent - first = sent - (first + 1) + 1 := by omega
  refine ⟨by omega, ?_, ?_⟩
  · rw [sequential, sequential, h1]
    simp [seqRun, hne]
  · obtain ⟨d, rfl⟩ : ∃ d, sent = first + d := ⟨sent - first, by omega⟩
    have hd : first + d - first = d := by omega
    rw [sequential, hd, seqRun_range']

/-- Witness for C10 at first = 2, sent = 5. -/
theorem sequential_terminates_witness :
    (2 : Nat) ≠ 5 ∧ (2 : Nat) ≤ 5 ∧
      (5 - (2 + 1) < 5 - 2 ∧
        sequential 2 5 =
          (2 :: (sequential (2 + 1) 5).1, (sequential (2 + 1) 5).2) ∧
        (sequential 2 5).2 = 5) :=
  ⟨by decide, by decide, sequential_terminates 2 5 (by decide) (by decide)⟩

/-- C1 (failing input): for the range [0, 7) with 3 execution units, parallel
invokes fn only 6 times — on positions 0..5, partitioned [[0,1],[2,3],[4,5]] —
and position 6 is never visited, contradicting one-invocation-per-element.
The partitioner's loop and vector are sized by the range length n instead of
the unit count, so the boundary parallel consumes as its last one is
first + U * chunkSize, not the forced sentinel. -/
theorem parallel_skips_remainder :
    (parallel (fun _ => 3) 0 0 7).1 = some [[0, 1], [2, 3], [4, 5]] ∧
    ([[0, 1], [2, 3], [4, 5]] : List (List Nat)).flatten.length = 6 ∧ (6 : Nat) ≠ 7 := by
  decide

/-- C2 (failing input): for the range [0, 7) with 3 execution units, the last
boundary the parallel executor consumes is paritions[3] = position 6, not the
original last = 7: the union of the consumed partitions is [0, 6) and misses
the final element.  The first boundary does equal the original first. -/
theorem partitioner_last_boundary_not_sent :
    (for_each_partitioner (fun _ => 3) 0 0 7).1.read 3 = some 6 ∧
    (for_each_partitioner (fun _ => 3) 0 0 7).1.read 0 = some 0 ∧
    (6 : Nat) ≠ 7 := by
  decide

/-- C3 (failing input): for N = 7, U = 3 (q = 2, r = 1) the final consumed
partition is [paritions[2], paritions[3]) = [4, 6), of size 2 = q, not
q + r = 3: the remainder is not absorbed into the final partition. -/
theorem final_partition_size_wrong :
    (for_each_partitioner (fun _ => 3) 0 0 7).1.read 2 = some 4 ∧
    (for_each_partitioner (fun _ => 3) 0 0 7).1.read 3 = some 6 ∧
    (6 : Nat) - 4 = 2 ∧ 7 / 3 + 7 % 3 = 3 ∧ (2 : Nat) ≠ 3 := by
  decide

/-- C4 (failing input): for N = 5, U = 10 the boundary vector has N + 1 = 6
cells but the parallel executor reads cells 0..10; the read of cell 6 is out
of bounds (undefined behaviour in C++), so the dispatch faults instead of
completing with 5 invocations.  Even N = 0 with U = 1 faults the same way. -/
theorem parallel_reads_out_of_bounds :
    (for_each_partitioner (fun _ => 10) 0 0 5).1.size = 6 ∧
    (for_each_partitioner (fun _ => 10) 0 0 5).1.read 6 = none ∧
    (parallel (fun _ => 10) 0 0 5).1 = none ∧
    (parallel (fun _ => 1) 0 0 0).1 = none := by
  decide

/-- C5 (failing input): for N = 7, U = 3 the partitioner returns a vector of
8 = N + 1 boundary positions, produced by advancing N = 7 times, not the
claimed U + 1 = 4 positions from U advances: the loop bound and the vector
size use the range length where the unit count was intended. -/
theorem partitioner_boundary_count_wrong :
    (for_each_partitioner (fun _ => 3) 0 0 7).1.size = 8 ∧ (8 : Nat) ≠ 3 + 1 := by
  decide

/-- C6 counterexample: at policy = parallel, range [0, 3), one unit, the
operator returns void (DispatchResult.unit), not the sentinel iterator 3:
operator() has deduced return type auto with no return statement. -/
theorem dispatch_returns_void_cex :
    (forEachOperator (fun _ => 1) 0 true true 0 3).1 = DispatchResult.unit ∧
    (forEachOperator (fun _ => 1) 0 true true 0 3).1 ≠ DispatchResult.iter 3 := by
  decide

/-- C6 (amended): dispatch returns no value — for every provider, query state,
policy, and range the operator yields void (DispatchResult.unit); the parallel
executor it delegates to does itself return the original sentinel unchanged,
but the operator discards that value. -/
theorem dispatch_returns_void (provider : Nat → Nat) (queryCount : Nat)
    (policyIsParallel iterIsRandomAccess : Bool) (first sent : Nat) :
    (forEachOperator provider queryCount policyIsParallel iterIsRandomAccess
        first sent).1 = DispatchResult.unit ∧
    (parallel provider queryCount first sent).2.1 = sent :=
  ⟨rfl, rfl⟩

/-- C7 counterexample: with a policy that does not request parallel execution
(policyIsParallel = false) on a random-access range, the claim requires the
sequential path, yet the branch condition is true and the operator produces the
parallel executor's result (two worker traces on [0, 4) with two units), not
the sequential executor's single pass. -/
theorem dispatch_always_parallel_cex :
    dispatchSelectsParallel false true = true ∧
    dispatchSelectsParallel false true ≠ (false && true) ∧
    (forEachOperator (fun _ => 2) 0 false true 0 4).2.1 =
      (parallel (fun _ => 2) 0 0 4).1 ∧
    (parallel (fun _ => 2) 0 0 4).1 = some [[0, 1], [2, 3]] ∧
    (sequential 0 4).1 = [0, 1, 2, 3] := by
  decide

/-- C7 (amended): the dispatcher always selects the parallel path, for every
policy and iterator category: the random-access/parallel-policy test is
stubbed to the literal true, so the operator's result is the parallel
executor's result regardless of the policy and iterator arguments. -/
theorem dispatch_always_parallel (provider : Nat → Nat) (queryCount : Nat)
    (policyIsParallel iterIsRandomAccess : Bool) (first sent : Nat) :
    dispatchSelectsParallel policyIsParallel iterIsRandomAccess = true ∧
    forEachOperator provider queryCount policyIsParallel iterIsRandomAccess
        first sent =
      (DispatchResult.unit, (parallel provider queryCount first sent).1,
        (parallel provider queryCount first sent).2.2) :=
  ⟨rfl, rfl⟩

/-- C9 counterexample: one parallel dispatch advances the query counter from 0
to 2 — the execution-unit provider is queried twice, not once.  Moreover the
two call sites use their own query's value: with a provider answering 1 to the
first query (worker count) and 4 to the second (chunk size) on the range
[0, 4), the single spawned worker covers only [0, 4/4) = [0, 1), which is
impossible if one queried value were used for both. -/
theorem provider_queried_twice_cex :
    (parallel (fun _ => 2) 0 0 4).2.2 = 2 ∧ (2 : Nat) ≠ 1 ∧
    (parallel (fun k => if k = 0 then 1 else 4) 0 0 4).1 = some [[0]] := by
  decide

/-- C9 (amended): during one parallel dispatch the execution-unit provider is
queried exactly twice — once by parallel to decide how many workers to spawn
and once by the partitioner to compute the chunk size; each site uses its own
query's value, and the two coincide when the provider is stable for the call. -/
theorem provider_queried_twice (provider : Nat → Nat)
    (queryCount first sent : Nat) :
    (parallel provider queryCount first sent).2.2 = queryCount + 2 :=
  rfl

end PstlThreadBackend
